import Mathlib

/-
Verification of the generic S-expression binding engine of the KiCadFiles
repository (src/kicadfiles/base_element.py) together with representative
record declarations (src/kicadfiles/pad_and_drill.py, board_layout.py).

The Python code is shallowly embedded: terms become an inductive type,
machine mutation of the parse cursor becomes explicit state passing, and
exceptions become an Except monad threaded together with the warning log
produced by the Failsafe strictness level.

External collaborators that are not part of src/ (the tokenizer module
sexpr_parser with its SExprParser consumption tracker, the sexpdata Symbol
type, and the record module base_types holding Size and At) are modelled
from the specification where needed; each such definition carries a note.
-/

set_option maxHeartbeats 1000000

/-- Parser strictness levels for error handling
    (base_element.py, class ParseStrictness). -/
inductive ParseStrictness where
  | strict
  | silent
  | failsafe
deriving DecidableEq, Repr

/-- An atomic value occurring in an S-expression term.  Modelled from the spec:
the tokenizer collaborator (not under src/) produces atoms that are symbols,
quoted strings, integers or floats; during encoding the engine additionally
places raw Python booleans and enum values into terms.  Float payloads are
modelled as rationals (the engine never performs arithmetic on them, it only
passes them through and converts between representations). -/
inductive Atom where
  | sym (s : String)
  | str (s : String)
  | int (n : Int)
  | float (q : Rat)
  | bool (b : Bool)
  | enumv (tag : String)
deriving DecidableEq, Repr

/-- An S-expression term: an atom or an ordered list of terms. -/
inductive SExpr where
  | atom (a : Atom)
  | list (xs : List SExpr)

mutual

/-- Decidable equality of terms (needed so witness theorems can evaluate by
decide); the nested list forces a mutual definition. -/
def SExpr.decEq : (a b : SExpr) → Decidable (a = b)
  | .atom a, .atom b =>
      if h : a = b then isTrue (by rw [h])
      else isFalse (by intro hh; cases hh; exact h rfl)
  | .atom _, .list _ => isFalse (by intro h; cases h)
  | .list _, .atom _ => isFalse (by intro h; cases h)
  | .list xs, .list ys =>
      match SExpr.decEqList xs ys with
      | isTrue h => isTrue (by rw [h])
      | isFalse h => isFalse (by intro hh; cases hh; exact h rfl)

/-- Decidable equality of term lists. -/
def SExpr.decEqList : (xs ys : List SExpr) → Decidable (xs = ys)
  | [], [] => isTrue rfl
  | [], _ :: _ => isFalse (by intro h; cases h)
  | _ :: _, [] => isFalse (by intro h; cases h)
  | x :: xs, y :: ys =>
      match SExpr.decEq x y, SExpr.decEqList xs ys with
      | isTrue h1, isTrue h2 => isTrue (by rw [h1, h2])
      | isFalse h1, _ =>
          isFalse (by intro hh; injection hh with hl ht; exact h1 hl)
      | _, isFalse h2 =>
          isFalse (by intro hh; injection hh with hl ht; exact h2 ht)

end

instance : DecidableEq SExpr := SExpr.decEq

/-- Python str() of an atom.  For floats the Python repr always shows a
decimal point (str(10.0) is a four character string); this is approximated
for integral rationals and is never load-bearing in the claims. -/
def atomStr : Atom → String
  | .sym s => s
  | .str s => s
  | .int n => toString n
  | .float q => if q.den == 1 then toString q.num ++ ".0" else toString q
  | .bool b => if b then "True" else "False"
  | .enumv tag => tag

/-- Python str() of a term.  Lists stringify to their Python repr, which can
never equal a token name (token names contain no brackets); the placeholder
below keeps that property. -/
def sexprStr : SExpr → String
  | .atom a => atomStr a
  | .list _ => "[list]"

/-- True when the term is a Python list. -/
def SExpr.isList : SExpr → Bool
  | .atom _ => false
  | .list _ => true

/-- The element sequence of a term (empty for atoms; cursor operations are
only ever invoked on list terms in the modelled fragment). -/
def SExpr.elems : SExpr → List SExpr
  | .atom _ => []
  | .list xs => xs

/-- Python len() of the current list. -/
def SExpr.len (s : SExpr) : Nat := s.elems.length

/-- Python indexing sexpr[i] on the current list. -/
def SExpr.getAt? (s : SExpr) (i : Nat) : Option SExpr := s.elems.get? i

/-- A leading minus sign (string operations are written over the character
list so that proofs can evaluate them). -/
def strHasNeg (s : String) : Bool :=
  match s.data with
  | c :: _ => c == Char.ofNat 45
  | [] => false

/-- The string without its first character. -/
def strTail (s : String) : String := String.mk (s.data.drop 1)

/-- Recognizer for the decimal integer strings accepted by Python int().
Modelled from the spec: the grammar of numeric atoms is owned by the
tokenizer collaborator (atom := bare-symbol | quoted-string | integer |
float); only obviously numeric forms are recognised. -/
def isIntString (s : String) : Bool :=
  let core := if strHasNeg s then strTail s else s
  !core.data.isEmpty && core.data.all Char.isDigit

/-- Recognizer for the decimal float strings accepted by Python float().
Modelled from the spec, as for isIntString: at least one digit, only
digits and at most one decimal point. -/
def isFloatString (s : String) : Bool :=
  let core := if strHasNeg s then strTail s else s
  let cs := core.data
  cs.any Char.isDigit &&
    cs.all (fun c => c.isDigit || c == Char.ofNat 46) &&
    (cs.filter (fun c => c == Char.ofNat 46)).length ≤ 1

/-- Rational value of a digit string (helper for the numeric conversions). -/
def natOfDigits (s : String) : Nat :=
  s.data.foldl (fun acc c => acc * 10 + (c.toNat - 48)) 0

/-- Python int(value) on an atom: succeeds on ints, bools, floats
(truncating toward zero) and integer strings, fails otherwise. -/
def pyInt? : Atom → Option Int
  | .int n => some n
  | .bool b => some (if b then 1 else 0)
  | .float q => some (q.num.tdiv (q.den : Int))
  | .sym s =>
      if isIntString s then
        some (if strHasNeg s then -(natOfDigits (strTail s) : Int)
              else (natOfDigits s : Int))
      else none
  | .str s =>
      if isIntString s then
        some (if strHasNeg s then -(natOfDigits (strTail s) : Int)
              else (natOfDigits s : Int))
      else none
  | .enumv _ => none

/-- Rational reading of a decimal string with at most one point. -/
def ratOfFloatString (s : String) : Rat :=
  let neg := strHasNeg s
  let core := if neg then strTail s else s
  let intPart := core.data.takeWhile (fun c => !(c == Char.ofNat 46))
  let fracPart := (core.data.dropWhile (fun c => !(c == Char.ofNat 46))).drop 1
  let q : Rat := (natOfDigits (String.mk intPart) : Rat) +
    (natOfDigits (String.mk fracPart) : Rat) / ((10 : Rat) ^ fracPart.length)
  if neg then -q else q

/-- Python float(value) on an atom: succeeds on floats, ints, bools and
numeric strings, fails otherwise. -/
def pyFloat? : Atom → Option Rat
  | .float q => some q
  | .int n => some (n : Rat)
  | .bool b => some (if b then 1 else 0)
  | .sym s => if isFloatString s then some (ratOfFloatString s) else none
  | .str s => if isFloatString s then some (ratOfFloatString s) else none
  | .enumv _ => none

/-- Python str.lower(), written over the character list. -/
def strToLower (s : String) : String := String.mk (s.data.map Char.toLower)

/-- Python bool conversion used by parse_bool and _convert_to_type:
str(value).lower() membership in ("yes", "true", "1").  Total on atoms. -/
def pyBool (a : Atom) : Bool :=
  let s := strToLower (atomStr a)
  s == "yes" || s == "true" || s == "1"

/-- Python substring containment needle in hay (used by the pretty printer
condition token_name in ("type"), where ("type") is the plain string). -/
def isSubstrOf (needle hay : String) : Bool :=
  (List.range (hay.data.length + 1)).any
    (fun i => needle.data.isPrefixOf (hay.data.drop i))

/-- Joining with a separator, written recursively over the list so that
proofs can evaluate it. -/
def strIntercalate (sep : String) : List String → String
  | [] => ""
  | [x] => x
  | x :: xs => x ++ sep ++ strIntercalate sep xs

/-- Cursor for tracking position in an S-expression during parsing
(base_element.py, class ParseCursor).  The used index set is the
consumption tracker; modelled from the spec: the SExprParser class lives in
the tokenizer module sexpr_parser which is not under src/, and the spec
describes it as a set of used positional indices of the current list. -/
structure ParseCursor where
  sexpr : SExpr
  used : List Nat
  path : List String
  strictness : ParseStrictness
deriving DecidableEq

/-- SExprParser.mark_used: add an index to the used set. -/
def ParseCursor.mark_used (c : ParseCursor) (i : Nat) : ParseCursor :=
  { c with used := if i ∈ c.used then c.used else c.used ++ [i] }

/-- ParseCursor.enter: new cursor for a nested object, with a fresh
consumption tracker, an extended path and the same strictness. -/
def ParseCursor.enter (c : ParseCursor) (s : SExpr) (name : String) : ParseCursor :=
  { sexpr := s, used := [], path := c.path ++ [name], strictness := c.strictness }

/-- ParseCursor.get_path_str. -/
def ParseCursor.get_path_str (c : ParseCursor) : String :=
  strIntercalate " > " c.path

/-- ParseCursor.log_issue: raise in Strict, log and continue in Failsafe,
do nothing in Silent.  The warning log is threaded explicitly. -/
def ParseCursor.log_issue (c : ParseCursor) (log : List String)
    (message : String) : Except String (List String) :=
  match c.strictness with
  | .strict => .error message
  | .failsafe => .ok (log ++ [message])
  | .silent => .ok log

/-- ParseCursor._get_value_at_index: read the raw element at an index with
validation; out-of-range or a nested list yields none (after routing the
anomaly through log_issue when required); an atom is marked used and
returned. -/
def get_value_at_index (c : ParseCursor) (log : List String) (index : Nat)
    (field_name type_name : String) (required : Bool) :
    Except String (Option Atom × ParseCursor × List String) :=
  if index ≥ c.sexpr.len then
    if required then
      match c.log_issue log (c.get_path_str ++ ": Missing required " ++
          type_name ++ " " ++ field_name ++ " at index " ++ toString index) with
      | .error e => .error e
      | .ok log2 => .ok (none, c, log2)
    else .ok (none, c, log)
  else
    match c.sexpr.getAt? index with
    | some (.list _) =>
        if required then
          match c.log_issue log (c.get_path_str ++ ": Expected " ++ type_name ++
              " for " ++ field_name ++ ", got list") with
          | .error e => .error e
          | .ok log2 => .ok (none, c, log2)
        else .ok (none, c, log)
    | some (.atom a) => .ok (some a, c.mark_used index, log)
    | none => .ok (none, c, log)

/-- ParseCursor.parse_int. -/
def parse_int (c : ParseCursor) (log : List String) (index : Nat)
    (field_name : String) (required : Bool) :
    Except String (Option Int × ParseCursor × List String) :=
  match get_value_at_index c log index field_name "int" required with
  | .error e => .error e
  | .ok (none, c2, log2) => .ok (none, c2, log2)
  | .ok (some a, c2, log2) =>
      match pyInt? a with
      | some n => .ok (some n, c2, log2)
      | none =>
          match c2.log_issue log2 (c2.get_path_str ++ ": Cannot convert " ++
              atomStr a ++ " to int for " ++ field_name) with
          | .error e => .error e
          | .ok log3 => .ok (none, c2, log3)

/-- ParseCursor.parse_float. -/
def parse_float (c : ParseCursor) (log : List String) (index : Nat)
    (field_name : String) (required : Bool) :
    Except String (Option Rat × ParseCursor × List String) :=
  match get_value_at_index c log index field_name "float" required with
  | .error e => .error e
  | .ok (none, c2, log2) => .ok (none, c2, log2)
  | .ok (some a, c2, log2) =>
      match pyFloat? a with
      | some q => .ok (some q, c2, log2)
      | none =>
          match c2.log_issue log2 (c2.get_path_str ++ ": Cannot convert " ++
              atomStr a ++ " to float for " ++ field_name) with
          | .error e => .error e
          | .ok log3 => .ok (none, c2, log3)

/-- ParseCursor.parse_str: never fails on an atom (str() is total). -/
def parse_str (c : ParseCursor) (log : List String) (index : Nat)
    (field_name : String) (required : Bool) :
    Except String (Option String × ParseCursor × List String) :=
  match get_value_at_index c log index field_name "str" required with
  | .error e => .error e
  | .ok (none, c2, log2) => .ok (none, c2, log2)
  | .ok (some a, c2, log2) => .ok (some (atomStr a), c2, log2)

/-- ParseCursor.parse_bool: total on atoms, the conversion itself can never
produce an anomaly. -/
def parse_bool (c : ParseCursor) (log : List String) (index : Nat)
    (field_name : String) (required : Bool) :
    Except String (Option Bool × ParseCursor × List String) :=
  match get_value_at_index c log index field_name "bool" required with
  | .error e => .error e
  | .ok (none, c2, log2) => .ok (none, c2, log2)
  | .ok (some a, c2, log2) => .ok (some (pyBool a), c2, log2)

/-- Worker of find_token: linear scan after the head, matching either a
nested list whose head stringifies to the token name or a bare symbol or
string atom equal to it. -/
def find_token_go (c : ParseCursor) (token_name : String) :
    Nat → List SExpr → List SExpr × ParseCursor
  | _, [] => ([], c)
  | idx, item :: rest =>
      match item with
      | .list (h :: t) =>
          if sexprStr h == token_name then ((h :: t), c.mark_used idx)
          else find_token_go c token_name (idx + 1) rest
      | .atom (.sym s) =>
          if s == token_name then ([.atom (.sym s)], c.mark_used idx)
          else find_token_go c token_name (idx + 1) rest
      | .atom (.str s) =>
          if s == token_name then ([.atom (.str s)], c.mark_used idx)
          else find_token_go c token_name (idx + 1) rest
      | _ => find_token_go c token_name (idx + 1) rest

/-- ParseCursor.find_token (with mark_used = True, as every caller uses it):
returns the matching sub-term as a list, or the empty list.  The used set
is not consulted, exactly as in the source. -/
def find_token (c : ParseCursor) (token_name : String) :
    List SExpr × ParseCursor :=
  find_token_go c token_name 1 (c.sexpr.elems.drop 1)

/-- Head token of a term as computed at the start of KiCadObject.from_sexpr:
str(cursor.sexpr[0]) if cursor.sexpr else "empty".  A falsy term (empty
list, empty string) yields "empty"; a truthy string atom is subscripted at
its first character, as Python would. -/
def headTokenStr : SExpr → String
  | .list [] => "empty"
  | .list (h :: _) => sexprStr h
  | .atom a =>
      if (atomStr a).data.isEmpty then "empty"
      else String.mk ((atomStr a).data.take 1)

/-- Token validation of KiCadObject.from_sexpr: a head that is neither the
declared token nor a legacy alias raises unconditionally, before and
independent of any strictness-routed field handling. -/
def validateToken (valid_tokens : List String) (c : ParseCursor) :
    Except String Unit :=
  let token := headTokenStr c.sexpr
  if token ∈ valid_tokens then .ok ()
  else .error ("Token mismatch at " ++ c.get_path_str ++ ": expected " ++
      strIntercalate "|" valid_tokens ++ ", got " ++ token)

/-- Element decoder used by list fields: the dynamic dispatch
field_info.inner_type.from_sexpr(item, strictness, nested_cursor) of the
source, as a function of the nested cursor (whose sexpr is the element) and
the global log.  A primitive element type may yield none; a KiCadObject
always yields an instance or raises. -/
abbrev ElemDecoder (α : Type) :=
  ParseCursor → List String → Except String (Option α × List String)

/-- Worker for the known-token branch of KiCadObject._parse_list_field:
every nested list whose head equals the element token is marked used and
recursively decoded; decode failures propagate (no try around this
branch). -/
def parse_list_field_known_go {α : Type} (dec : ElemDecoder α)
    (token_name field_name : String) :
    Nat → List SExpr → List α → ParseCursor → List String →
    Except String (List α × ParseCursor × List String)
  | _, [], acc, c, log => .ok (acc, c, log)
  | idx, item :: rest, acc, c, log =>
      match item with
      | .list (h :: t) =>
          if sexprStr h == token_name then
            let c2 := c.mark_used idx
            let nested := c2.enter (.list (h :: t))
                (field_name ++ "[" ++ toString acc.length ++ "]")
            match dec nested log with
            | .error e => .error e
            | .ok (some x, log2) =>
                parse_list_field_known_go dec token_name field_name
                  (idx + 1) rest (acc ++ [x]) c2 log2
            | .ok (none, log2) =>
                parse_list_field_known_go dec token_name field_name
                  (idx + 1) rest acc c2 log2
          else
            parse_list_field_known_go dec token_name field_name
              (idx + 1) rest acc c log
      | _ =>
          parse_list_field_known_go dec token_name field_name
            (idx + 1) rest acc c log

/-- KiCadObject._parse_list_field, list of self-parsing elements with a
fixed token name. -/
def parse_list_field_known {α : Type} (dec : ElemDecoder α)
    (token_name field_name : String) (c : ParseCursor) (log : List String) :
    Except String (List α × ParseCursor × List String) :=
  parse_list_field_known_go dec token_name field_name 1
    (c.sexpr.elems.drop 1) [] c log

/-- Worker for the unknown-token branch of KiCadObject._parse_list_field:
every nested list at a not-yet-used index is tried; a decode failure is
caught (also under Strict) and the element is skipped without being marked
used.  On the error path the element has written no log entries (its token
check fails before any field handling, and Strict never logs), so the log
continues unchanged. -/
def parse_list_field_unknown_go {α : Type} (dec : ElemDecoder α)
    (field_name : String) :
    Nat → List SExpr → List α → ParseCursor → List String →
    Except String (List α × ParseCursor × List String)
  | _, [], acc, c, log => .ok (acc, c, log)
  | idx, item :: rest, acc, c, log =>
      if item.isList && !(idx ∈ c.used) then
        let nested := c.enter item
            (field_name ++ "[" ++ toString acc.length ++ "]")
        match dec nested log with
        | .error _ =>
            parse_list_field_unknown_go dec field_name (idx + 1) rest acc c log
        | .ok (some x, log2) =>
            parse_list_field_unknown_go dec field_name (idx + 1) rest
              (acc ++ [x]) (c.mark_used idx) log2
        | .ok (none, log2) =>
            parse_list_field_unknown_go dec field_name (idx + 1) rest
              acc c log2
      else
        parse_list_field_unknown_go dec field_name (idx + 1) rest acc c log

/-- KiCadObject._parse_list_field, list of self-parsing elements without a
fixed token name (heterogeneous collections). -/
def parse_list_field_unknown {α : Type} (dec : ElemDecoder α)
    (field_name : String) (c : ParseCursor) (log : List String) :
    Except String (List α × ParseCursor × List String) :=
  parse_list_field_unknown_go dec field_name 1 (c.sexpr.elems.drop 1) [] c log

/-- KiCadObject._parse_list_field for a list field whose element type is not
self-parsing: both branches of the source are guarded by can_self_parse, so
such a field always collects the empty list, consuming nothing and logging
nothing under every strictness. -/
def parse_list_field_primitive {α : Type} (c : ParseCursor)
    (log : List String) :
    Except String (List α × ParseCursor × List String) :=
  .ok ([], c, log)

/-- Net connection record (src/kicadfiles/pad_and_drill.py, class Net):
token "net", positional fields number (int, default 0) and name (str,
default ""). -/
structure Net where
  number : Int
  name : String
deriving DecidableEq, Repr

/-- KiCadObject.to_sexpr for Net: the head is the plain token string,
followed by the raw field values in declaration order. -/
def Net.to_sexpr (r : Net) : SExpr :=
  .list [.atom (.str "net"), .atom (.int r.number), .atom (.str r.name)]

/-- KiCadObject.from_sexpr for Net, at cursor level: token validation, then
the positional scalar fields in classifier order (number at index 1, name
at index 2); a field whose parse yields none takes its declared default. -/
def Net.from_sexpr_cursor (c : ParseCursor) (log : List String) :
    Except String (Net × ParseCursor × List String) :=
  match validateToken ["net"] c with
  | .error e => .error e
  | .ok _ =>
      match parse_int c log 1 "number" true with
      | .error e => .error e
      | .ok (n, c2, log2) =>
          match parse_str c2 log2 2 "name" true with
          | .error e => .error e
          | .ok (s, c3, log3) =>
              .ok ({ number := n.getD 0, name := s.getD "" }, c3, log3)

/-- Net.from_sexpr entry point: builds the root cursor with a fresh
consumption tracker and the class name as diagnostic path. -/
def Net.from_sexpr (s : SExpr) (strictness : ParseStrictness) :
    Except String (Net × List String) :=
  match Net.from_sexpr_cursor ⟨s, [], ["Net"], strictness⟩ [] with
  | .error e => .error e
  | .ok (r, _, log) => .ok (r, log)

/-- Element decoder for Net used by list fields (the dynamic dispatch
inner_type.from_sexpr; a KiCadObject decode never yields None). -/
def decNet : ElemDecoder Net := fun c log =>
  match Net.from_sexpr_cursor c log with
  | .error e => .error e
  | .ok (r, _, log2) => .ok (some r, log2)

/-- Private layers record (src/kicadfiles/board_layout.py, class
PrivateLayers): token "private_layers", one field layers : List str. -/
structure PrivateLayers where
  layers : List String
deriving DecidableEq, Repr

/-- KiCadObject.to_sexpr for PrivateLayers: the list field appends every
element raw. -/
def PrivateLayers.to_sexpr (r : PrivateLayers) : SExpr :=
  .list (.atom (.str "private_layers") :: r.layers.map (fun l => .atom (.str l)))

/-- KiCadObject.from_sexpr for PrivateLayers at cursor level: layers is a
list field with a non-self-parsing element type, so _parse_list_field
collects the empty list. -/
def PrivateLayers.from_sexpr_cursor (c : ParseCursor) (log : List String) :
    Except String (PrivateLayers × ParseCursor × List String) :=
  match validateToken ["private_layers"] c with
  | .error e => .error e
  | .ok _ =>
      match (parse_list_field_primitive c log :
          Except String (List String × ParseCursor × List String)) with
      | .error e => .error e
      | .ok (ls, c2, log2) => .ok ({ layers := ls }, c2, log2)

/-- PrivateLayers.from_sexpr entry point. -/
def PrivateLayers.from_sexpr (s : SExpr) (strictness : ParseStrictness) :
    Except String (PrivateLayers × List String) :=
  match PrivateLayers.from_sexpr_cursor ⟨s, [], ["PrivateLayers"], strictness⟩ [] with
  | .error e => .error e
  | .ok (r, _, log) => .ok (r, log)

/-- Size record.  Modelled from the spec: the class lives in the module
base_types which is not under src/; spec section 8 declares it as a
two-field scalar type Size with fields width and height (floats, default
0.0) and token "size". -/
structure Size where
  width : Rat
  height : Rat
deriving DecidableEq, Repr

/-- KiCadObject.to_sexpr for Size. -/
def Size.to_sexpr (r : Size) : SExpr :=
  .list [.atom (.str "size"), .atom (.float r.width), .atom (.float r.height)]

/-- KiCadObject.from_sexpr for Size at cursor level. -/
def Size.from_sexpr_cursor (c : ParseCursor) (log : List String) :
    Except String (Size × ParseCursor × List String) :=
  match validateToken ["size"] c with
  | .error e => .error e
  | .ok _ =>
      match parse_float c log 1 "width" true with
      | .error e => .error e
      | .ok (w, c2, log2) =>
          match parse_float c2 log2 2 "height" true with
          | .error e => .error e
          | .ok (h, c3, log3) =>
              .ok ({ width := w.getD 0, height := h.getD 0 }, c3, log3)

/-- Size.from_sexpr entry point. -/
def Size.from_sexpr (s : SExpr) (strictness : ParseStrictness) :
    Except String (Size × List String) :=
  match Size.from_sexpr_cursor ⟨s, [], ["Size"], strictness⟩ [] with
  | .error e => .error e
  | .ok (r, _, log) => .ok (r, log)

/-- At record.  Modelled from the spec: the class lives in base_types which
is not under src/; per spec section 8 and the repository tests it has token
"at" and positional float fields x and y (default 0.0) plus an optional
positional float angle. -/
structure At where
  x : Rat
  y : Rat
  angle : Option Rat
deriving DecidableEq, Repr

/-- KiCadObject.to_sexpr for At: a None optional field is skipped. -/
def At.to_sexpr (r : At) : SExpr :=
  .list (.atom (.str "at") :: .atom (.float r.x) :: .atom (.float r.y) ::
    (match r.angle with
     | some a => [SExpr.atom (.float a)]
     | none => []))

/-- KiCadObject.from_sexpr for At at cursor level: x and y are required,
angle is optional (required=False suppresses the missing-field anomaly). -/
def At.from_sexpr_cursor (c : ParseCursor) (log : List String) :
    Except String (At × ParseCursor × List String) :=
  match validateToken ["at"] c with
  | .error e => .error e
  | .ok _ =>
      match parse_float c log 1 "x" true with
      | .error e => .error e
      | .ok (x, c2, log2) =>
          match parse_float c2 log2 2 "y" true with
          | .error e => .error e
          | .ok (y, c3, log3) =>
              match parse_float c3 log3 3 "angle" false with
              | .error e => .error e
              | .ok (a, c4, log4) =>
                  .ok ({ x := x.getD 0, y := y.getD 0, angle := a }, c4, log4)

/-- At.from_sexpr entry point. -/
def At.from_sexpr (s : SExpr) (strictness : ParseStrictness) :
    Except String (At × List String) :=
  match At.from_sexpr_cursor ⟨s, [], ["At"], strictness⟩ [] with
  | .error e => .error e
  | .ok (r, _, log) => .ok (r, log)

/-- Container record holding a known-token list of self-parsing children.
Modelled from the spec, section 8 (list field completeness): a container
type with one list field whose element type is Net (token "net"); the
container token is "net_list". -/
structure NetContainer where
  nets : List Net
deriving DecidableEq, Repr

/-- KiCadObject.to_sexpr for NetContainer: list fields append each
element's encode result in list order. -/
def NetContainer.to_sexpr (r : NetContainer) : SExpr :=
  .list (.atom (.str "net_list") :: r.nets.map Net.to_sexpr)

/-- KiCadObject.from_sexpr for NetContainer at cursor level: the list field
collects via the known-token branch of _parse_list_field. -/
def NetContainer.from_sexpr_cursor (c : ParseCursor) (log : List String) :
    Except String (NetContainer × ParseCursor × List String) :=
  match validateToken ["net_list"] c with
  | .error e => .error e
  | .ok _ =>
      match parse_list_field_known decNet "net" "nets" c log with
      | .error e => .error e
      | .ok (ns, c2, log2) => .ok ({ nets := ns }, c2, log2)

/-- NetContainer.from_sexpr entry point. -/
def NetContainer.from_sexpr (s : SExpr) (strictness : ParseStrictness) :
    Except String (NetContainer × List String) :=
  match NetContainer.from_sexpr_cursor ⟨s, [], ["NetContainer"], strictness⟩ [] with
  | .error e => .error e
  | .ok (r, _, log) => .ok (r, log)

/-- KiCadObject._parse_sexpr_base_field, named branch (the branch taken for
every field whose element type carries a fixed token name, as all
KiCadObject subclasses do): look the token up via find_token; if found,
descend with a child cursor and delegate to the element type's from_sexpr
(no try/except around this call, so a raising nested decode propagates);
if not found and the field is required, route a missing-token anomaly
through log_issue; the field stays unset otherwise. -/
def parse_sexpr_base_field_named {α : Type} (dec : ElemDecoder α)
    (token_name field_name : String) (is_optional : Bool)
    (c : ParseCursor) (log : List String) :
    Except String (Option α × ParseCursor × List String) :=
  match find_token c token_name with
  | ([], c2) =>
      if !is_optional then
        match c2.log_issue log (c2.get_path_str ++ ": Required token " ++
            token_name ++ " not found") with
        | .error e => .error e
        | .ok log2 => .ok (none, c2, log2)
      else .ok (none, c2, log)
  | (h :: t, c2) =>
      match dec (c2.enter (.list (h :: t)) field_name) log with
      | .error e => .error e
      | .ok (r, log2) => .ok (r, c2, log2)

/-- Best length ratio record (src/kicadfiles/pad_and_drill.py, class
BestLengthRatio): token "best_length_ratio", one positional float field
ratio with default 0.5. -/
structure BestLengthRatio where
  ratio : Rat
deriving DecidableEq, Repr

/-- KiCadObject.to_sexpr for BestLengthRatio. -/
def BestLengthRatio.to_sexpr (r : BestLengthRatio) : SExpr :=
  .list [.atom (.str "best_length_ratio"), .atom (.float r.ratio)]

/-- KiCadObject.from_sexpr for BestLengthRatio at cursor level. -/
def BestLengthRatio.from_sexpr_cursor (c : ParseCursor) (log : List String) :
    Except String (BestLengthRatio × ParseCursor × List String) :=
  match validateToken ["best_length_ratio"] c with
  | .error e => .error e
  | .ok _ =>
      match parse_float c log 1 "ratio" true with
      | .error e => .error e
      | .ok (v, c2, log2) => .ok ({ ratio := v.getD (0.5 : Rat) }, c2, log2)

/-- Element decoder for BestLengthRatio. -/
def decBestLengthRatio : ElemDecoder BestLengthRatio := fun c log =>
  match BestLengthRatio.from_sexpr_cursor c log with
  | .error e => .error e
  | .ok (r, _, log2) => .ok (some r, log2)

/-- Max length record (src/kicadfiles/pad_and_drill.py, class MaxLength):
token "max_length", one positional float field length with default 1.0. -/
structure MaxLength where
  length : Rat
deriving DecidableEq, Repr

/-- KiCadObject.to_sexpr for MaxLength. -/
def MaxLength.to_sexpr (r : MaxLength) : SExpr :=
  .list [.atom (.str "max_length"), .atom (.float r.length)]

/-- KiCadObject.from_sexpr for MaxLength at cursor level. -/
def MaxLength.from_sexpr_cursor (c : ParseCursor) (log : List String) :
    Except String (MaxLength × ParseCursor × List String) :=
  match validateToken ["max_length"] c with
  | .error e => .error e
  | .ok _ =>
      match parse_float c log 1 "length" true with
      | .error e => .error e
      | .ok (v, c2, log2) => .ok ({ length := v.getD (1 : Rat) }, c2, log2)

/-- Element decoder for MaxLength. -/
def decMaxLength : ElemDecoder MaxLength := fun c log =>
  match MaxLength.from_sexpr_cursor c log with
  | .error e => .error e
  | .ok (r, _, log2) => .ok (some r, log2)

/-- Best width ratio record (src/kicadfiles/pad_and_drill.py, class
BestWidthRatio): token "best_width_ratio", one positional float field ratio
with default 1.0. -/
structure BestWidthRatio where
  ratio : Rat
deriving DecidableEq, Repr

/-- KiCadObject.to_sexpr for BestWidthRatio. -/
def BestWidthRatio.to_sexpr (r : BestWidthRatio) : SExpr :=
  .list [.atom (.str "best_width_ratio"), .atom (.float r.ratio)]

/-- KiCadObject.from_sexpr for BestWidthRatio at cursor level. -/
def BestWidthRatio.from_sexpr_cursor (c : ParseCursor) (log : List String) :
    Except String (BestWidthRatio × ParseCursor × List String) :=
  match validateToken ["best_width_ratio"] c with
  | .error e => .error e
  | .ok _ =>
      match parse_float c log 1 "ratio" true with
      | .error e => .error e
      | .ok (v, c2, log2) => .ok ({ ratio := v.getD (1 : Rat) }, c2, log2)

/-- Element decoder for BestWidthRatio. -/
def decBestWidthRatio : ElemDecoder BestWidthRatio := fun c log =>
  match BestWidthRatio.from_sexpr_cursor c log with
  | .error e => .error e
  | .ok (r, _, log2) => .ok (some r, log2)

/-- Max width record (src/kicadfiles/pad_and_drill.py, class MaxWidth):
token "max_width", one positional float field width with default 2.0. -/
structure MaxWidth where
  width : Rat
deriving DecidableEq, Repr

/-- KiCadObject.to_sexpr for MaxWidth. -/
def MaxWidth.to_sexpr (r : MaxWidth) : SExpr :=
  .list [.atom (.str "max_width"), .atom (.float r.width)]

/-- KiCadObject.from_sexpr for MaxWidth at cursor level. -/
def MaxWidth.from_sexpr_cursor (c : ParseCursor) (log : List String) :
    Except String (MaxWidth × ParseCursor × List String) :=
  match validateToken ["max_width"] c with
  | .error e => .error e
  | .ok _ =>
      match parse_float c log 1 "width" true with
      | .error e => .error e
      | .ok (v, c2, log2) => .ok ({ width := v.getD (2 : Rat) }, c2, log2)

/-- Element decoder for MaxWidth. -/
def decMaxWidth : ElemDecoder MaxWidth := fun c log =>
  match MaxWidth.from_sexpr_cursor c log with
  | .error e => .error e
  | .ok (r, _, log2) => .ok (some r, log2)

/-- Curved edges record (src/kicadfiles/pad_and_drill.py, class
CurvedEdges): token "curved_edges", one positional bool field value with
default False. -/
structure CurvedEdges where
  value : Bool
deriving DecidableEq, Repr

/-- KiCadObject.to_sexpr for CurvedEdges: the raw Python bool is appended. -/
def CurvedEdges.to_sexpr (r : CurvedEdges) : SExpr :=
  .list [.atom (.str "curved_edges"), .atom (.bool r.value)]

/-- KiCadObject.from_sexpr for CurvedEdges at cursor level. -/
def CurvedEdges.from_sexpr_cursor (c : ParseCursor) (log : List String) :
    Except String (CurvedEdges × ParseCursor × List String) :=
  match validateToken ["curved_edges"] c with
  | .error e => .error e
  | .ok _ =>
      match parse_bool c log 1 "value" true with
      | .error e => .error e
      | .ok (v, c2, log2) => .ok ({ value := v.getD false }, c2, log2)

/-- Element decoder for CurvedEdges. -/
def decCurvedEdges : ElemDecoder CurvedEdges := fun c log =>
  match CurvedEdges.from_sexpr_cursor c log with
  | .error e => .error e
  | .ok (r, _, log2) => .ok (some r, log2)

/-- Filter ratio record (src/kicadfiles/pad_and_drill.py, class
FilterRatio): token "filter_ratio", one positional float field ratio with
default 0.9. -/
structure FilterRatio where
  ratio : Rat
deriving DecidableEq, Repr

/-- KiCadObject.to_sexpr for FilterRatio. -/
def FilterRatio.to_sexpr (r : FilterRatio) : SExpr :=
  .list [.atom (.str "filter_ratio"), .atom (.float r.ratio)]

/-- KiCadObject.from_sexpr for FilterRatio at cursor level. -/
def FilterRatio.from_sexpr_cursor (c : ParseCursor) (log : List String) :
    Except String (FilterRatio × ParseCursor × List String) :=
  match validateToken ["filter_ratio"] c with
  | .error e => .error e
  | .ok _ =>
      match parse_float c log 1 "ratio" true with
      | .error e => .error e
      | .ok (v, c2, log2) => .ok ({ ratio := v.getD (0.9 : Rat) }, c2, log2)

/-- Element decoder for FilterRatio. -/
def decFilterRatio : ElemDecoder FilterRatio := fun c log =>
  match FilterRatio.from_sexpr_cursor c log with
  | .error e => .error e
  | .ok (r, _, log2) => .ok (some r, log2)

/-- Enabled record (src/kicadfiles/pad_and_drill.py, class Enabled): token
"enabled", one positional bool field value with default True. -/
structure Enabled where
  value : Bool
deriving DecidableEq, Repr

/-- KiCadObject.to_sexpr for Enabled. -/
def Enabled.to_sexpr (r : Enabled) : SExpr :=
  .list [.atom (.str "enabled"), .atom (.bool r.value)]

/-- KiCadObject.from_sexpr for Enabled at cursor level. -/
def Enabled.from_sexpr_cursor (c : ParseCursor) (log : List String) :
    Except String (Enabled × ParseCursor × List String) :=
  match validateToken ["enabled"] c with
  | .error e => .error e
  | .ok _ =>
      match parse_bool c log 1 "value" true with
      | .error e => .error e
      | .ok (v, c2, log2) => .ok ({ value := v.getD true }, c2, log2)

/-- Element decoder for Enabled. -/
def decEnabled : ElemDecoder Enabled := fun c log =>
  match Enabled.from_sexpr_cursor c log with
  | .error e => .error e
  | .ok (r, _, log2) => .ok (some r, log2)

/-- Allow two segments record (src/kicadfiles/pad_and_drill.py, class
AllowTwoSegments): token "allow_two_segments", one positional bool field
value with default True. -/
structure AllowTwoSegments where
  value : Bool
deriving DecidableEq, Repr

/-- KiCadObject.to_sexpr for AllowTwoSegments. -/
def AllowTwoSegments.to_sexpr (r : AllowTwoSegments) : SExpr :=
  .list [.atom (.str "allow_two_segments"), .atom (.bool r.value)]

/-- KiCadObject.from_sexpr for AllowTwoSegments at cursor level. -/
def AllowTwoSegments.from_sexpr_cursor (c : ParseCursor) (log : List String) :
    Except String (AllowTwoSegments × ParseCursor × List String) :=
  match validateToken ["allow_two_segments"] c with
  | .error e => .error e
  | .ok _ =>
      match parse_bool c log 1 "value" true with
      | .error e => .error e
      | .ok (v, c2, log2) => .ok ({ value := v.getD true }, c2, log2)

/-- Element decoder for AllowTwoSegments. -/
def decAllowTwoSegments : ElemDecoder AllowTwoSegments := fun c log =>
  match AllowTwoSegments.from_sexpr_cursor c log with
  | .error e => .error e
  | .ok (r, _, log2) => .ok (some r, log2)

/-- Prefer zone connections record (src/kicadfiles/pad_and_drill.py, class
PreferZoneConnections): token "prefer_zone_connections", one positional
bool field value with default True. -/
structure PreferZoneConnections where
  value : Bool
deriving DecidableEq, Repr

/-- KiCadObject.to_sexpr for PreferZoneConnections. -/
def PreferZoneConnections.to_sexpr (r : PreferZoneConnections) : SExpr :=
  .list [.atom (.str "prefer_zone_connections"), .atom (.bool r.value)]

/-- KiCadObject.from_sexpr for PreferZoneConnections at cursor level. -/
def PreferZoneConnections.from_sexpr_cursor (c : ParseCursor)
    (log : List String) :
    Except String (PreferZoneConnections × ParseCursor × List String) :=
  match validateToken ["prefer_zone_connections"] c with
  | .error e => .error e
  | .ok _ =>
      match parse_bool c log 1 "value" true with
      | .error e => .error e
      | .ok (v, c2, log2) => .ok ({ value := v.getD true }, c2, log2)

/-- Element decoder for PreferZoneConnections. -/
def decPreferZoneConnections : ElemDecoder PreferZoneConnections :=
  fun c log =>
    match PreferZoneConnections.from_sexpr_cursor c log with
    | .error e => .error e
    | .ok (r, _, log2) => .ok (some r, log2)

/-- Teardrops record (src/kicadfiles/pad_and_drill.py, class Teardrops):
token "teardrops", nine required named fields whose types are each a
self-parsing KiCadObject, bound through the named singular branch of
_parse_sexpr_base_field. -/
structure Teardrops where
  best_length_ratio : BestLengthRatio
  max_length : MaxLength
  best_width_ratio : BestWidthRatio
  max_width : MaxWidth
  curved_edges : CurvedEdges
  filter_ratio : FilterRatio
  enabled : Enabled
  allow_two_segments : AllowTwoSegments
  prefer_zone_connections : PreferZoneConnections
deriving DecidableEq, Repr

/-- KiCadObject.to_sexpr for Teardrops: every nested self-parsing field
appends its own encode result, in declaration order. -/
def Teardrops.to_sexpr (r : Teardrops) : SExpr :=
  .list [.atom (.str "teardrops"),
    r.best_length_ratio.to_sexpr,
    r.max_length.to_sexpr,
    r.best_width_ratio.to_sexpr,
    r.max_width.to_sexpr,
    r.curved_edges.to_sexpr,
    r.filter_ratio.to_sexpr,
    r.enabled.to_sexpr,
    r.allow_two_segments.to_sexpr,
    r.prefer_zone_connections.to_sexpr]

/-- KiCadObject.from_sexpr for Teardrops at cursor level: token
validation, then each nested field through parse_sexpr_base_field_named in
classifier order; a field whose lookup yields none takes its
default-factory instance. -/
def Teardrops.from_sexpr_cursor (c : ParseCursor) (log : List String) :
    Except String (Teardrops × ParseCursor × List String) :=
  match validateToken ["teardrops"] c with
  | .error e => .error e
  | .ok _ =>
   match parse_sexpr_base_field_named decBestLengthRatio "best_length_ratio"
       "best_length_ratio" false c log with
   | .error e => .error e
   | .ok (f1, c1, log1) =>
    match parse_sexpr_base_field_named decMaxLength "max_length" "max_length"
        false c1 log1 with
    | .error e => .error e
    | .ok (f2, c2, log2) =>
     match parse_sexpr_base_field_named decBestWidthRatio "best_width_ratio"
         "best_width_ratio" false c2 log2 with
     | .error e => .error e
     | .ok (f3, c3, log3) =>
      match parse_sexpr_base_field_named decMaxWidth "max_width" "max_width"
          false c3 log3 with
      | .error e => .error e
      | .ok (f4, c4, log4) =>
       match parse_sexpr_base_field_named decCurvedEdges "curved_edges"
           "curved_edges" false c4 log4 with
       | .error e => .error e
       | .ok (f5, c5, log5) =>
        match parse_sexpr_base_field_named decFilterRatio "filter_ratio"
            "filter_ratio" false c5 log5 with
        | .error e => .error e
        | .ok (f6, c6, log6) =>
         match parse_sexpr_base_field_named decEnabled "enabled" "enabled"
             false c6 log6 with
         | .error e => .error e
         | .ok (f7, c7, log7) =>
          match parse_sexpr_base_field_named decAllowTwoSegments
              "allow_two_segments" "allow_two_segments" false c7 log7 with
          | .error e => .error e
          | .ok (f8, c8, log8) =>
           match parse_sexpr_base_field_named decPreferZoneConnections
               "prefer_zone_connections" "prefer_zone_connections" false
               c8 log8 with
           | .error e => .error e
           | .ok (f9, c9, log9) =>
               .ok ({ best_length_ratio := f1.getD { ratio := (0.5 : Rat) },
                      max_length := f2.getD { length := (1 : Rat) },
                      best_width_ratio := f3.getD { ratio := (1 : Rat) },
                      max_width := f4.getD { width := (2 : Rat) },
                      curved_edges := f5.getD { value := false },
                      filter_ratio := f6.getD { ratio := (0.9 : Rat) },
                      enabled := f7.getD { value := true },
                      allow_two_segments := f8.getD { value := true },
                      prefer_zone_connections := f9.getD { value := true } },
                 c9, log9)

/-- Teardrops.from_sexpr entry point. -/
def Teardrops.from_sexpr (s : SExpr) (strictness : ParseStrictness) :
    Except String (Teardrops × List String) :=
  match Teardrops.from_sexpr_cursor ⟨s, [], ["Teardrops"], strictness⟩ [] with
  | .error e => .error e
  | .ok (r, _, log) => .ok (r, log)

/-- True when a decode result is an exception. -/
def isErr {α : Type} : Except String α → Bool
  | .error _ => true
  | .ok _ => false

/-- Decidable equality of decode results, so witnesses can evaluate. -/
instance {ε α : Type} [DecidableEq ε] [DecidableEq α] :
    DecidableEq (Except ε α) := fun a b =>
  match a, b with
  | .error x, .error y =>
      if h : x = y then isTrue (by rw [h])
      else isFalse (by intro hh; cases hh; exact h rfl)
  | .ok x, .ok y =>
      if h : x = y then isTrue (by rw [h])
      else isFalse (by intro hh; cases hh; exact h rfl)
  | .error _, .ok _ => isFalse (by intro hh; cases hh)
  | .ok _, .error _ => isFalse (by intro hh; cases hh)

/-- Indentation: one tab per nesting level. -/
def tabs (n : Nat) : String := String.mk (List.replicate n '\t')

/-- First escaping pass of _format_primitive_value: every backslash
(character 92) becomes two backslashes. -/
def escapeBackslashes (s : String) : String :=
  String.mk (s.data.foldr
    (fun c acc =>
      if c == Char.ofNat 92 then Char.ofNat 92 :: Char.ofNat 92 :: acc
      else c :: acc) [])

/-- Second escaping pass of _format_primitive_value: every double quote
(character 34) gains a preceding backslash. -/
def escapeQuotes (s : String) : String :=
  String.mk (s.data.foldr
    (fun c acc =>
      if c == Char.ofNat 34 then Char.ofNat 92 :: Char.ofNat 34 :: acc
      else c :: acc) [])

/-- The double quote as a one character string. -/
def dquote : String := String.mk [Char.ofNat 34]

/-- KiCadObject._format_primitive_value: yes/no for booleans, the bare tag
for enum values, quoting with backslash-then-quote escaping for ordinary
strings except the literal tokens yes and no, and str() for everything
else.  Note on the modelling: tokenizer symbols (sexpdata.Symbol, a module
not under src/) are taken at spec value, printing via their natural textual
form rather than through the string branch. -/
def format_primitive_value : Atom → String
  | .bool b => if b then "yes" else "no"
  | .enumv tag => tag
  | .str s =>
      if s == "yes" || s == "no" then s
      else dquote ++ escapeQuotes (escapeBackslashes s) ++ dquote
  | .sym s => s
  | .int n => atomStr (.int n)
  | .float q => atomStr (.float q)

/-- Formatting of one non-list child inside a list with the given head:
the source condition token_name in ("type") is a Python substring test on
the string "type", so any head that is a substring of "type" suppresses
quoting of string children. -/
def renderChild (token_name : String) (a : Atom) : String :=
  match a with
  | .str s =>
      if isSubstrOf token_name "type" then s
      else format_primitive_value (.str s)
  | a => format_primitive_value a

/-- The formatted non-list children of a list (primitive_values in the
source). -/
def primsOf (token_name : String) (items : List SExpr) : List String :=
  items.filterMap (fun it =>
    match it with
    | .atom a => some (renderChild token_name a)
    | .list _ => none)

/-- The nested-list children of a list (nested_lists in the source). -/
def nestedOf (items : List SExpr) : List SExpr :=
  items.filter (fun it => it.isList)

mutual

/-- KiCadObject._format_sexpr_kicad_style: the KiCad pretty printer. -/
def format_sexpr_kicad_style (s : SExpr) (indent_level : Nat) : String :=
  match s with
  | .atom a => format_primitive_value a
  | .list [] => "()"
  | .list (h :: items) =>
      let current_indent := tabs indent_level
      let token_name := sexprStr h
      if items.isEmpty then current_indent ++ "(" ++ token_name ++ ")"
      else
        let primitive_values := primsOf token_name items
        if (nestedOf items).isEmpty && items.length + 1 ≤ 4 then
          current_indent ++ "(" ++
            strIntercalate " " (token_name :: primitive_values) ++ ")"
        else
          let primitive_part :=
            if primitive_values.isEmpty then ""
            else " " ++ strIntercalate " " primitive_values
          strIntercalate "\n"
            ((current_indent ++ "(" ++ token_name ++ primitive_part) ::
              (formatNestedLines items (indent_level + 1) ++
                [current_indent ++ ")"]))

/-- Recursive rendering of the nested-list children, one line each. -/
def formatNestedLines (items : List SExpr) (ind : Nat) : List String :=
  match items with
  | [] => []
  | .list ys :: rest =>
      format_sexpr_kicad_style (.list ys) ind :: formatNestedLines rest ind
  | .atom _ :: rest => formatNestedLines rest ind

end

/-- A primitive wrapper class tag: the three concrete subclasses of
KiCadPrimitive (base_element.py). -/
inductive PrimClass where
  | kicadStr
  | kicadInt
  | kicadFloat
deriving DecidableEq, Repr

/-- A primitive wrapper payload. -/
inductive PrimValue where
  | s (v : String)
  | i (v : Int)
  | f (v : Rat)
deriving DecidableEq, Repr

/-- A KiCadPrimitive instance: concrete class, instance token, value and
the required metadata flag. -/
structure KiCadPrimitive where
  cls : PrimClass
  token : String
  value : PrimValue
  required : Bool
deriving DecidableEq, Repr

/-- Python == on wrapper payloads: numeric values compare across int and
float, strings never equal numbers. -/
def pyValEq : PrimValue → PrimValue → Bool
  | .s a, .s b => a == b
  | .i a, .i b => a == b
  | .f a, .f b => a == b
  | .i a, .f b => (a : Rat) == b
  | .f a, .i b => a == (b : Rat)
  | _, _ => false

/-- KiCadPrimitive.__eq__: same concrete class, equal token, equal value;
the required flag is intentionally excluded. -/
def KiCadPrimitive.eq (a b : KiCadPrimitive) : Bool :=
  a.cls == b.cls && a.token == b.token && pyValEq a.value b.value

/-- The term of the spec example "(size 10.0 20.0 extra)". -/
def sizeExtraTerm : SExpr :=
  .list [.atom (.sym "size"), .atom (.float 10), .atom (.float 20),
    .atom (.sym "extra")]

/-- The term of the spec example "(at not_a_number 20.0)". -/
def atBadTerm : SExpr :=
  .list [.atom (.sym "at"), .atom (.sym "not_a_number"), .atom (.float 20)]

/-- A parent term holding three nested net elements, the middle one with a
number atom that int() cannot convert. -/
def netsBadMidTerm : SExpr :=
  .list [.atom (.str "prims"),
    Net.to_sexpr ⟨1, "a"⟩,
    .list [.atom (.str "net"), .atom (.sym "bad"), .atom (.str "b")],
    Net.to_sexpr ⟨2, "c"⟩]

/-- A parent term holding two nested net elements around one nested list
whose head is a different token. -/
def netsMixedTerm : SExpr :=
  .list [.atom (.str "prims"),
    Net.to_sexpr ⟨1, "a"⟩,
    .list [.atom (.str "foo"), .atom (.int 9)],
    Net.to_sexpr ⟨2, "c"⟩]

/-- Replace the element at one index of a list term (used to state that an
already-consumed index is never examined again). -/
def SExpr.setAt (s : SExpr) (i : Nat) (v : SExpr) : SExpr :=
  match s with
  | .atom a => .atom a
  | .list xs => .list (xs.set i v)

/-- Round trip for the Net record: decoding the encoded term under Strict
reproduces the instance with an empty log. -/
theorem net_roundtrip (r : Net) :
    Net.from_sexpr (Net.to_sexpr r) .strict = .ok (r, []) := rfl

/-- Round trip for the Size record. -/
theorem size_roundtrip (r : Size) :
    Size.from_sexpr (Size.to_sexpr r) .strict = .ok (r, []) := rfl

/-- Round trip for the At record, covering both states of the optional
angle field. -/
theorem at_roundtrip (r : At) :
    At.from_sexpr (At.to_sexpr r) .strict = .ok (r, []) := by
  obtain ⟨x, y, a⟩ := r
  cases a <;> rfl

/-- Cursor-level round trip for Net, for any enclosing cursor state. -/
theorem net_cursor_roundtrip (r : Net) (c0 : ParseCursor) (log : List String)
    (h : c0.sexpr = Net.to_sexpr r) :
    Net.from_sexpr_cursor c0 log = .ok (r, (c0.mark_used 1).mark_used 2, log) := by
  obtain ⟨s, u, p, st⟩ := c0
  simp only at h
  subst h
  rfl

/-- The known-token scan over a sequence of encoded nets collects exactly
those nets, in order, with the log unchanged. -/
theorem plfk_go_encoded (nets : List Net) : ∀ (idx : Nat) (acc : List Net)
    (c : ParseCursor) (log : List String),
    ∃ c2, parse_list_field_known_go decNet "net" "nets" idx
      (nets.map Net.to_sexpr) acc c log = .ok (acc ++ nets, c2, log) := by
  induction nets with
  | nil => intro idx acc c log; exact ⟨c, by simp [parse_list_field_known_go]⟩
  | cons n ns ih =>
      intro idx acc c log
      have hdec : decNet ((c.mark_used idx).enter (Net.to_sexpr n)
          ("nets" ++ "[" ++ toString acc.length ++ "]")) log = .ok (some n, log) := by
        rw [decNet]
        rw [net_cursor_roundtrip n _ log rfl]
      simp only [Net.to_sexpr] at hdec
      obtain ⟨c2, hc2⟩ := ih (idx + 1) (acc ++ [n]) (c.mark_used idx) log
      refine ⟨c2, ?_⟩
      simp only [List.map_cons, parse_list_field_known_go, Net.to_sexpr, sexprStr,
        atomStr, beq_self_eq_true, if_true]
      rw [hdec]
      show parse_list_field_known_go decNet "net" "nets" (idx + 1)
        (List.map Net.to_sexpr ns) (acc ++ [n]) (c.mark_used idx) log =
        Except.ok (acc ++ n :: ns, c2, log)
      rw [hc2]
      simp

/-- Round trip for the NetContainer record with its known-token list field. -/
theorem netcontainer_roundtrip (r : NetContainer) :
    NetContainer.from_sexpr (NetContainer.to_sexpr r) .strict = .ok (r, []) := by
  obtain ⟨nets⟩ := r
  obtain ⟨c2, hc2⟩ := plfk_go_encoded nets 1 []
    ⟨NetContainer.to_sexpr ⟨nets⟩, [], ["NetContainer"], .strict⟩ []
  simp only [NetContainer.to_sexpr] at hc2
  simp only [NetContainer.from_sexpr, NetContainer.from_sexpr_cursor,
    parse_list_field_known, NetContainer.to_sexpr, validateToken, headTokenStr,
    sexprStr, atomStr, SExpr.elems, List.drop]
  rw [if_pos (show ("net_list" : String) ∈ ["net_list"] by decide)]
  rw [hc2]
  simp

/-- Round trip for the Teardrops record, whose nine fields are singular
nested self-parsing records bound through the named branch of
_parse_sexpr_base_field. -/
theorem teardrops_roundtrip (r : Teardrops) :
    Teardrops.from_sexpr (Teardrops.to_sexpr r) .strict = .ok (r, []) := by
  obtain ⟨⟨q1⟩, ⟨q2⟩, ⟨q3⟩, ⟨q4⟩, ⟨b5⟩, ⟨q6⟩, ⟨b7⟩, ⟨b8⟩, ⟨b9⟩⟩ := r
  cases b5 <;> cases b7 <;> cases b8 <;> cases b9 <;> rfl

/-- A head outside the valid token list makes validateToken raise. -/
theorem validateToken_not_mem (vt : List String) (c : ParseCursor)
    (h : headTokenStr c.sexpr ∉ vt) : ∃ e, validateToken vt c = .error e :=
  ⟨"Token mismatch at " ++ c.get_path_str ++ ": expected " ++
      strIntercalate "|" vt ++ ", got " ++ headTokenStr c.sexpr,
    by simp only [validateToken]; rw [if_neg h]⟩

/-- Token gate for Net under every strictness. -/
theorem net_token_err (s : SExpr) (st : ParseStrictness)
    (h : headTokenStr s ∉ ["net"]) : isErr (Net.from_sexpr s st) = true := by
  obtain ⟨e, he⟩ := validateToken_not_mem ["net"] ⟨s, [], ["Net"], st⟩ h
  simp only [Net.from_sexpr, Net.from_sexpr_cursor]
  rw [he]
  rfl

/-- Token gate for Size under every strictness. -/
theorem size_token_err (s : SExpr) (st : ParseStrictness)
    (h : headTokenStr s ∉ ["size"]) : isErr (Size.from_sexpr s st) = true := by
  obtain ⟨e, he⟩ := validateToken_not_mem ["size"] ⟨s, [], ["Size"], st⟩ h
  simp only [Size.from_sexpr, Size.from_sexpr_cursor]
  rw [he]
  rfl

/-- Token gate for At under every strictness. -/
theorem at_token_err (s : SExpr) (st : ParseStrictness)
    (h : headTokenStr s ∉ ["at"]) : isErr (At.from_sexpr s st) = true := by
  obtain ⟨e, he⟩ := validateToken_not_mem ["at"] ⟨s, [], ["At"], st⟩ h
  simp only [At.from_sexpr, At.from_sexpr_cursor]
  rw [he]
  rfl

/-- Token gate for PrivateLayers under every strictness. -/
theorem privatelayers_token_err (s : SExpr) (st : ParseStrictness)
    (h : headTokenStr s ∉ ["private_layers"]) :
    isErr (PrivateLayers.from_sexpr s st) = true := by
  obtain ⟨e, he⟩ :=
    validateToken_not_mem ["private_layers"] ⟨s, [], ["PrivateLayers"], st⟩ h
  simp only [PrivateLayers.from_sexpr, PrivateLayers.from_sexpr_cursor]
  rw [he]
  rfl

/-- Token gate for NetContainer under every strictness. -/
theorem netcontainer_token_err (s : SExpr) (st : ParseStrictness)
    (h : headTokenStr s ∉ ["net_list"]) :
    isErr (NetContainer.from_sexpr s st) = true := by
  obtain ⟨e, he⟩ :=
    validateToken_not_mem ["net_list"] ⟨s, [], ["NetContainer"], st⟩ h
  simp only [NetContainer.from_sexpr, NetContainer.from_sexpr_cursor]
  rw [he]
  rfl

/-- Graded behavior of parse_float on a missing required element. -/
theorem parse_float_missing (c : ParseCursor) (log : List String) (idx : Nat)
    (fn : String) (h : idx ≥ c.sexpr.len) :
    (c.strictness = .strict → isErr (parse_float c log idx fn true) = true) ∧
    (c.strictness = .failsafe →
      ∃ m, parse_float c log idx fn true = .ok (none, c, log ++ [m])) ∧
    (c.strictness = .silent →
      parse_float c log idx fn true = .ok (none, c, log)) := by
  obtain ⟨s, u, p, st⟩ := c
  simp only [SExpr.len] at h
  refine ⟨fun hst => ?_, fun hst => ?_, fun hst => ?_⟩ <;>
    (simp only at hst; subst hst)
  · simp [parse_float, get_value_at_index, ParseCursor.log_issue, SExpr.len, h,
      isErr]
  · refine ⟨ParseCursor.get_path_str ⟨s, u, p, .failsafe⟩ ++
      ": Missing required " ++ "float" ++ " " ++ fn ++ " at index " ++
      toString idx, ?_⟩
    simp [parse_float, get_value_at_index, ParseCursor.log_issue, SExpr.len, h]
  · simp [parse_float, get_value_at_index, ParseCursor.log_issue, SExpr.len, h]

/-- Graded behavior of parse_float on a present atom whose conversion
fails; the element is marked used before the conversion is attempted. -/
theorem parse_float_conv_fail (c : ParseCursor) (log : List String) (idx : Nat)
    (fn : String) (req : Bool) (a : Atom)
    (hget : c.sexpr.getAt? idx = some (.atom a)) (hconv : pyFloat? a = none) :
    (c.strictness = .strict → isErr (parse_float c log idx fn req) = true) ∧
    (c.strictness = .failsafe → ∃ m, parse_float c log idx fn req =
      .ok (none, c.mark_used idx, log ++ [m])) ∧
    (c.strictness = .silent → parse_float c log idx fn req =
      .ok (none, c.mark_used idx, log)) := by
  have hlt : idx < c.sexpr.len := (List.get?_eq_some.mp hget).1
  obtain ⟨s, u, p, st⟩ := c
  simp only [SExpr.getAt?, List.get?_eq_getElem?] at hget
  simp only [SExpr.len] at hlt
  refine ⟨fun hst => ?_, fun hst => ?_, fun hst => ?_⟩ <;>
    (simp only at hst; subst hst)
  · simp [parse_float, get_value_at_index, ParseCursor.log_issue, SExpr.len,
      SExpr.getAt?, Nat.not_le.mpr hlt, hget, hconv, isErr,
      ParseCursor.mark_used]
  · refine ⟨ParseCursor.get_path_str ⟨s, u, p, .failsafe⟩ ++
      ": Cannot convert " ++ atomStr a ++ " to float for " ++ fn, ?_⟩
    simp [parse_float, get_value_at_index, ParseCursor.log_issue, SExpr.len,
      SExpr.getAt?, Nat.not_le.mpr hlt, hget, hconv, ParseCursor.get_path_str,
      ParseCursor.mark_used]
  · simp [parse_float, get_value_at_index, ParseCursor.log_issue, SExpr.len,
      SExpr.getAt?, Nat.not_le.mpr hlt, hget, hconv, ParseCursor.mark_used]

/-- parse_bool on any present atom returns the membership conversion,
marks the index used, raises nothing and logs nothing, under every
strictness and required flag. -/
theorem parse_bool_atom (c : ParseCursor) (log : List String) (idx : Nat)
    (fn : String) (req : Bool) (a : Atom)
    (hget : c.sexpr.getAt? idx = some (.atom a)) :
    parse_bool c log idx fn req = .ok (some (pyBool a), c.mark_used idx, log) := by
  have hlt : idx < c.sexpr.len := (List.get?_eq_some.mp hget).1
  obtain ⟨s, u, p, st⟩ := c
  simp only [SExpr.getAt?, List.get?_eq_getElem?] at hget
  simp only [SExpr.len] at hlt
  simp [parse_bool, get_value_at_index, SExpr.len, SExpr.getAt?,
    Nat.not_le.mpr hlt, hget]

/-- Marking an index used never removes previously used indices. -/
theorem mark_used_subset (c : ParseCursor) (j : Nat) :
    c.used ⊆ (c.mark_used j).used := by
  intro x hx
  by_cases hj : j ∈ c.used <;> simp [ParseCursor.mark_used, hj, hx]

/-- The unknown-token scan is blind to the content of already-used indices:
two element sequences that agree everywhere outside a set of indices
already recorded as used produce identical results. -/
theorem plfu_go_mask {α : Type} (dec : ElemDecoder α) (fn : String)
    (base : List Nat) :
    ∀ (items items2 : List SExpr) (idx : Nat) (acc : List α)
      (c : ParseCursor) (log : List String),
      items.length = items2.length →
      (∀ k, items.get? k ≠ items2.get? k → (idx + k) ∈ base) →
      base ⊆ c.used →
      parse_list_field_unknown_go dec fn idx items acc c log =
      parse_list_field_unknown_go dec fn idx items2 acc c log := by
  intro items
  induction items with
  | nil =>
      intro items2 idx acc c log hlen hdiff hsub
      cases items2 with
      | nil => rfl
      | cons _ _ => simp at hlen
  | cons it rest ih =>
      intro items2 idx acc c log hlen hdiff hsub
      cases items2 with
      | nil => simp at hlen
      | cons it2 rest2 =>
          have hlen2 : rest.length = rest2.length := by simpa using hlen
          have hdiff2 : ∀ k, rest.get? k ≠ rest2.get? k → (idx + 1 + k) ∈ base := by
            intro k hk
            have h3 : idx + 1 + k = idx + (k + 1) := by omega
            rw [h3]
            exact hdiff (k + 1) (by simpa using hk)
          by_cases hidx : idx ∈ c.used
          · have h1 : (it.isList && !(decide (idx ∈ c.used))) = false := by
              simp [hidx]
            have h2 : (it2.isList && !(decide (idx ∈ c.used))) = false := by
              simp [hidx]
            simp only [parse_list_field_unknown_go, h1, h2, Bool.false_eq_true,
              if_false]
            exact ih rest2 (idx + 1) acc c log hlen2 hdiff2 hsub
          · have hhead : it = it2 := by
              by_contra hne
              have hne2 : (it :: rest).get? 0 ≠ (it2 :: rest2).get? 0 := by
                simpa using hne
              exact hidx (hsub (by simpa using hdiff 0 hne2))
            subst hhead
            simp only [parse_list_field_unknown_go]
            by_cases hcond : (it.isList && !(decide (idx ∈ c.used))) = true
            · rw [if_pos hcond, if_pos hcond]
              cases hdec : dec (c.enter it
                  (fn ++ "[" ++ toString acc.length ++ "]")) log with
              | error e =>
                  exact ih rest2 (idx + 1) acc c log hlen2 hdiff2 hsub
              | ok v =>
                  obtain ⟨x, log2⟩ := v
                  cases x with
                  | some xv =>
                      exact ih rest2 (idx + 1) (acc ++ [xv]) (c.mark_used idx)
                        log2 hlen2 hdiff2
                        (fun y hy => mark_used_subset c idx (hsub hy))
                  | none =>
                      exact ih rest2 (idx + 1) acc c log2 hlen2 hdiff2 hsub
            · rw [if_neg hcond, if_neg hcond]
              exact ih rest2 (idx + 1) acc c log hlen2 hdiff2 hsub

/-- Replacing the element stored at an already-used index changes nothing
about the unknown-token scan: that element is never examined or claimed
again. -/
theorem plfu_setAt_used {α : Type} (dec : ElemDecoder α) (fn : String)
    (c : ParseCursor) (log : List String) (i : Nat) (v : SExpr)
    (hi : i ∈ c.used) :
    parse_list_field_unknown_go dec fn 1 ((c.sexpr.setAt i v).elems.drop 1)
      [] c log =
    parse_list_field_unknown_go dec fn 1 (c.sexpr.elems.drop 1) [] c log := by
  apply plfu_go_mask dec fn [i]
  · cases c.sexpr with
    | atom a => rfl
    | list xs => simp [SExpr.setAt, SExpr.elems]
  · intro k hk
    cases hs : c.sexpr with
    | atom a =>
        rw [hs] at hk
        simp [SExpr.setAt] at hk
    | list xs =>
        rw [hs] at hk
        simp only [SExpr.setAt, SExpr.elems, List.get?_drop] at hk
        by_cases hik : 1 + k = i
        · simp [hik]
        · exact absurd (List.get?_set_ne v xs (fun hh => hik hh.symm)) hk
  · intro y hy
    simp only [List.mem_singleton] at hy
    subst hy
    exact hi

theorem fnl_eq_map (items : List SExpr) (ind : Nat) :
    formatNestedLines items ind =
      (nestedOf items).map (fun t => format_sexpr_kicad_style t ind) := by
  induction items with
  | nil => rfl
  | cons x rest ih =>
      cases x with
      | list ys => simp [formatNestedLines, nestedOf, SExpr.isList, List.filter,
          ih]
      | atom a => simp [formatNestedLines, nestedOf, SExpr.isList, List.filter,
          ih]

theorem format_one_element (ind : Nat) (h : SExpr) :
    format_sexpr_kicad_style (.list [h]) ind =
      tabs ind ++ "(" ++ sexprStr h ++ ")" := by
  simp [format_sexpr_kicad_style]

theorem format_single_line (ind : Nat) (h : SExpr) (items : List SExpr)
    (hne : items ≠ []) (hlen : items.length ≤ 3)
    (hatoms : ∀ x ∈ items, x.isList = false) :
    format_sexpr_kicad_style (.list (h :: items)) ind =
      tabs ind ++ "(" ++ strIntercalate " "
        (sexprStr h :: primsOf (sexprStr h) items) ++ ")" := by
  have hnil : nestedOf items = [] := by
    simp only [nestedOf]
    rw [List.filter_eq_nil]
    intro a ha
    simp [hatoms a ha]
  have hcond : ((nestedOf items).isEmpty && decide (items.length + 1 ≤ 4)) = true := by
    rw [hnil]
    simp
    omega
  have hemp : items.isEmpty = false := by
    cases items with
    | nil => exact absurd rfl hne
    | cons _ _ => rfl
  simp only [format_sexpr_kicad_style, hemp, Bool.false_eq_true, if_false,
    hcond, if_true]

theorem format_multi_line (ind : Nat) (h : SExpr) (items : List SExpr)
    (hne : items ≠ []) (hcase : nestedOf items ≠ [] ∨ 3 < items.length) :
    format_sexpr_kicad_style (.list (h :: items)) ind =
      strIntercalate "\n"
        ((tabs ind ++ "(" ++ sexprStr h ++
          (if (primsOf (sexprStr h) items).isEmpty then ""
           else " " ++ strIntercalate " " (primsOf (sexprStr h) items))) ::
          ((nestedOf items).map (fun t => format_sexpr_kicad_style t (ind + 1)) ++
            [tabs ind ++ ")"])) := by
  have hemp : items.isEmpty = false := by
    cases items with
    | nil => exact absurd rfl hne
    | cons _ _ => rfl
  have hcond : ((nestedOf items).isEmpty && decide (items.length + 1 ≤ 4)) = false := by
    rcases hcase with hnest | hlong
    · cases hn : nestedOf items with
      | nil => exact absurd hn hnest
      | cons _ _ => simp [hn]
    · have hdec4 : decide (items.length + 1 ≤ 4) = false := by
        simp
        omega
      rw [hdec4, Bool.and_false]
  simp only [format_sexpr_kicad_style, hemp, Bool.false_eq_true, if_false,
    hcond, fnl_eq_map]

/-- C1 (counterexample): round-trip idempotence fails on the code for the
src record type PrivateLayers, whose layers field is a list of a
non-self-parsing element type: encoding an instance with one layer and
decoding under Strict silently yields an instance with an empty list, not
equal to the original. -/
theorem C1_privatelayers_roundtrip_fails :
    PrivateLayers.from_sexpr (PrivateLayers.to_sexpr ⟨["F.Cu"]⟩) .strict =
      .ok (⟨[]⟩, []) ∧
    PrivateLayers.mk [] ≠ PrivateLayers.mk ["F.Cu"] := by
  constructor
  · rfl
  · decide

/-- C1 (amended): decode(encode(r), Strict) == r holds for record instances
whose fields are scalars, optional scalars, singular nested self-parsing
records and self-parsing known-token lists — shown for Net, Size, At (both
angle states), Teardrops (nine nested self-parsing record fields) and
NetContainer; it is only list fields with non-self-parsing elements that
break the round trip. -/
theorem C1_roundtrip_selfparsing :
    (∀ r : Net, Net.from_sexpr (Net.to_sexpr r) .strict = .ok (r, [])) ∧
    (∀ r : Size, Size.from_sexpr (Size.to_sexpr r) .strict = .ok (r, [])) ∧
    (∀ r : At, At.from_sexpr (At.to_sexpr r) .strict = .ok (r, [])) ∧
    (∀ r : Teardrops,
      Teardrops.from_sexpr (Teardrops.to_sexpr r) .strict = .ok (r, [])) ∧
    (∀ r : NetContainer,
      NetContainer.from_sexpr (NetContainer.to_sexpr r) .strict = .ok (r, [])) :=
  ⟨net_roundtrip, size_roundtrip, at_roundtrip, teardrops_roundtrip,
    netcontainer_roundtrip⟩

/-- C2: a term whose head is not among the valid tokens (declared token
plus legacy aliases) makes decode raise under every strictness level,
both for the generic token validation over an arbitrary valid-token list
and for each embedded record type. -/
theorem C2_token_gate :
    (∀ (vt : List String) (c : ParseCursor), headTokenStr c.sexpr ∉ vt →
      isErr (validateToken vt c) = true) ∧
    (∀ (s : SExpr) (st : ParseStrictness), headTokenStr s ∉ ["net"] →
      isErr (Net.from_sexpr s st) = true) ∧
    (∀ (s : SExpr) (st : ParseStrictness), headTokenStr s ∉ ["size"] →
      isErr (Size.from_sexpr s st) = true) ∧
    (∀ (s : SExpr) (st : ParseStrictness), headTokenStr s ∉ ["at"] →
      isErr (At.from_sexpr s st) = true) ∧
    (∀ (s : SExpr) (st : ParseStrictness), headTokenStr s ∉ ["private_layers"] →
      isErr (PrivateLayers.from_sexpr s st) = true) ∧
    (∀ (s : SExpr) (st : ParseStrictness), headTokenStr s ∉ ["net_list"] →
      isErr (NetContainer.from_sexpr s st) = true) := by
  refine ⟨?_, net_token_err, size_token_err, at_token_err,
    privatelayers_token_err, netcontainer_token_err⟩
  intro vt c h
  obtain ⟨e, he⟩ := validateToken_not_mem vt c h
  rw [he]
  rfl

/-- C2 witness: the mismatching head "foo" is rejected even in Silent. -/
theorem C2_token_gate_witness :
    headTokenStr (.list [.atom (.sym "foo"), .atom (.float 1)]) ∉
      (["size"] : List String) ∧
    isErr (Size.from_sexpr (.list [.atom (.sym "foo"), .atom (.float 1)])
      .silent) = true :=
  ⟨by decide, C2_token_gate.2.2.1 _ _ (by decide)⟩

/-- C3 (counterexample): decoding "(size 10.0 20.0 extra)" under Strict
does not raise — it returns the instance built from the claimed fields,
refuting the claim that unused trailing input is fatal under Strict. -/
theorem C3_strict_accepts_unused :
    Size.from_sexpr sizeExtraTerm .strict =
      .ok ({ width := 10, height := 20 }, []) ∧
    isErr (Size.from_sexpr sizeExtraTerm .strict) = false := by
  constructor <;> rfl

/-- C3 (amended): elements that no field descriptor claimed are ignored
under every strictness level; decode of "(size 10.0 20.0 extra)" returns
width 10, height 20 under Strict, Failsafe and Silent alike, with nothing
logged. -/
theorem C3_unused_ignored_all_modes :
    ∀ st : ParseStrictness,
      Size.from_sexpr sizeExtraTerm st =
        .ok ({ width := 10, height := 20 }, []) := by
  intro st
  cases st <;> rfl

/-- C4 (counterexample): a positional index that is already recorded as
consumed is claimed again.  With index 1 marked used, find_token still
returns the nested list stored at index 1 and marks it used again; and with
every index marked used, known-token list collection still collects all
three elements. -/
theorem C4_used_index_reclaimed :
    ((find_token ⟨netsBadMidTerm, [1], ["P"], .strict⟩ "net").1 =
      [.atom (.str "net"), .atom (.int 1), .atom (.str "a")]) ∧
    ((find_token ⟨netsBadMidTerm, [1], ["P"], .strict⟩ "net").2.used = [1]) ∧
    (parse_list_field_known decNet "net" "nets"
        ⟨netsBadMidTerm, [1, 2, 3], ["P"], .silent⟩ [] =
      .ok ([⟨1, "a"⟩, ⟨0, "b"⟩, ⟨2, "c"⟩],
        ⟨netsBadMidTerm, [1, 2, 3], ["P"], .silent⟩, [])) := by
  refine ⟨?_, ?_, ?_⟩ <;> decide

/-- C4 (amended): only the unknown-token list collection consults the
consumption tracker — replacing the element at an already-used index does
not change its result, so a consumed element is never examined or claimed
again by it; named-token lookup (find_token) and known-token list
collection scan without consulting the tracker and do re-claim
already-used elements. -/
theorem C4_consumption_tracking :
    (∀ (α : Type) (dec : ElemDecoder α) (fn : String) (c : ParseCursor)
      (log : List String) (i : Nat) (v : SExpr), i ∈ c.used →
      parse_list_field_unknown_go dec fn 1 ((c.sexpr.setAt i v).elems.drop 1)
        [] c log =
      parse_list_field_unknown_go dec fn 1 (c.sexpr.elems.drop 1) [] c log) ∧
    ((find_token ⟨netsBadMidTerm, [1, 2, 3], ["P"], .failsafe⟩ "net").1 ≠ [] ∧
     (find_token ⟨netsBadMidTerm, [1, 2, 3], ["P"], .failsafe⟩ "net").2.used =
       [1, 2, 3]) ∧
    (parse_list_field_known decNet "net" "nets"
        ⟨netsBadMidTerm, [1, 2, 3], ["P"], .failsafe⟩ [] =
      .ok ([⟨1, "a"⟩, ⟨0, "b"⟩, ⟨2, "c"⟩],
        ⟨netsBadMidTerm, [1, 2, 3], ["P"], .failsafe⟩,
        ["P > nets[1]: Cannot convert bad to int for number"])) := by
  refine ⟨fun α dec fn c log i v hi => plfu_setAt_used dec fn c log i v hi,
    ⟨?_, ?_⟩, ?_⟩ <;> decide

/-- C4 witness: replacing the used index 1 of the parent term with a junk
atom leaves the unknown-token scan unchanged. -/
theorem C4_consumption_tracking_witness :
    (1 ∈ (⟨netsBadMidTerm, [1], ["P"], .strict⟩ : ParseCursor).used) ∧
    parse_list_field_unknown_go decNet "elements" 1
      ((netsBadMidTerm.setAt 1 (.atom (.sym "junk"))).elems.drop 1) []
      ⟨netsBadMidTerm, [1], ["P"], .strict⟩ [] =
    parse_list_field_unknown_go decNet "elements" 1
      (netsBadMidTerm.elems.drop 1) []
      ⟨netsBadMidTerm, [1], ["P"], .strict⟩ [] :=
  ⟨by decide, C4_consumption_tracking.1 Net decNet "elements"
    ⟨netsBadMidTerm, [1], ["P"], .strict⟩ [] 1 (.atom (.sym "junk"))
    (by decide)⟩

/-- C5: missing-required-field and conversion-failure anomalies of a
positional scalar binding are routed identically through the strictness
policy — Strict raises, Failsafe substitutes the declared default and logs
one warning, Silent substitutes silently — and an anomalous field does not
prevent a convertible sibling from binding, as in the At example. -/
theorem C5_scalar_anomaly_grading :
    (∀ (c : ParseCursor) (log : List String) (idx : Nat) (fn : String),
      idx ≥ c.sexpr.len →
      (c.strictness = .strict → isErr (parse_float c log idx fn true) = true) ∧
      (c.strictness = .failsafe →
        ∃ m, parse_float c log idx fn true = .ok (none, c, log ++ [m])) ∧
      (c.strictness = .silent →
        parse_float c log idx fn true = .ok (none, c, log))) ∧
    (∀ (c : ParseCursor) (log : List String) (idx : Nat) (fn : String)
      (req : Bool) (a : Atom),
      c.sexpr.getAt? idx = some (.atom a) → pyFloat? a = none →
      (c.strictness = .strict → isErr (parse_float c log idx fn req) = true) ∧
      (c.strictness = .failsafe → ∃ m, parse_float c log idx fn req =
        .ok (none, c.mark_used idx, log ++ [m])) ∧
      (c.strictness = .silent → parse_float c log idx fn req =
        .ok (none, c.mark_used idx, log))) ∧
    (isErr (At.from_sexpr atBadTerm .strict) = true ∧
     At.from_sexpr atBadTerm .failsafe =
       .ok ({ x := 0, y := 20, angle := none },
         ["At: Cannot convert not_a_number to float for x"]) ∧
     At.from_sexpr atBadTerm .silent =
       .ok ({ x := 0, y := 20, angle := none }, [])) := by
  refine ⟨parse_float_missing, parse_float_conv_fail, ?_, ?_, ?_⟩ <;> decide

/-- C5 witness: the graded behavior evaluated at concrete cursors in
Silent mode for both anomaly kinds. -/
theorem C5_scalar_anomaly_grading_witness :
    parse_float ⟨sizeExtraTerm, [], ["Size"], .silent⟩ [] 9 "w" true =
      .ok (none, ⟨sizeExtraTerm, [], ["Size"], .silent⟩, []) ∧
    parse_float ⟨atBadTerm, [], ["At"], .silent⟩ [] 1 "x" true =
      .ok (none,
        (⟨atBadTerm, [], ["At"], .silent⟩ : ParseCursor).mark_used 1, []) :=
  ⟨(C5_scalar_anomaly_grading.1 ⟨sizeExtraTerm, [], ["Size"], .silent⟩ [] 9 "w"
      (by decide)).2.2 rfl,
   (C5_scalar_anomaly_grading.2.1 ⟨atBadTerm, [], ["At"], .silent⟩ [] 1 "x"
      true (.sym "not_a_number") (by decide) (by decide)).2.2 rfl⟩

/-- C6 (counterexample): in the unknown-token list branch under Strict, an
element whose decode raises (here: a net whose number atom is not
convertible) is caught and skipped — the whole decode is not aborted,
refuting the claim that an individual list-element decode failure aborts
under Strict for both list varieties. -/
theorem C6_strict_does_not_abort_unknown_list :
    parse_list_field_unknown decNet "elements"
        ⟨netsBadMidTerm, [], ["P"], .strict⟩ [] =
      .ok ([⟨1, "a"⟩, ⟨2, "c"⟩], ⟨netsBadMidTerm, [1, 3], ["P"], .strict⟩, []) ∧
    isErr (parse_list_field_unknown decNet "elements"
        ⟨netsBadMidTerm, [], ["P"], .strict⟩ []) = false := by
  constructor <;> decide

/-- C6 (amended): for known-token list fields a raising element decode
aborts the whole decode under Strict, while under Failsafe and Silent the
offending element is not skipped but included with defaulted fields; for
unknown-token list fields a raising element decode is caught and skipped
under every strictness (including Strict), content anomalies under
Failsafe and Silent yield included defaulted elements, and an element whose
head token the element type rejects is skipped in every mode while the
remaining elements are collected in input order. -/
theorem C6_list_element_failure_behavior :
    (isErr (parse_list_field_known decNet "net" "nets"
      ⟨netsBadMidTerm, [], ["P"], .strict⟩ []) = true) ∧
    (parse_list_field_known decNet "net" "nets"
        ⟨netsBadMidTerm, [], ["P"], .failsafe⟩ [] =
      .ok ([⟨1, "a"⟩, ⟨0, "b"⟩, ⟨2, "c"⟩],
        ⟨netsBadMidTerm, [1, 2, 3], ["P"], .failsafe⟩,
        ["P > nets[1]: Cannot convert bad to int for number"])) ∧
    (parse_list_field_known decNet "net" "nets"
        ⟨netsBadMidTerm, [], ["P"], .silent⟩ [] =
      .ok ([⟨1, "a"⟩, ⟨0, "b"⟩, ⟨2, "c"⟩],
        ⟨netsBadMidTerm, [1, 2, 3], ["P"], .silent⟩, [])) ∧
    (parse_list_field_unknown decNet "elements"
        ⟨netsBadMidTerm, [], ["P"], .silent⟩ [] =
      .ok ([⟨1, "a"⟩, ⟨0, "b"⟩, ⟨2, "c"⟩],
        ⟨netsBadMidTerm, [1, 2, 3], ["P"], .silent⟩, [])) ∧
    (parse_list_field_unknown decNet "elements"
        ⟨netsMixedTerm, [], ["P"], .strict⟩ [] =
      .ok ([⟨1, "a"⟩, ⟨2, "c"⟩], ⟨netsMixedTerm, [1, 3], ["P"], .strict⟩, [])) ∧
    (parse_list_field_unknown decNet "elements"
        ⟨netsMixedTerm, [], ["P"], .silent⟩ [] =
      .ok ([⟨1, "a"⟩, ⟨2, "c"⟩], ⟨netsMixedTerm, [1, 3], ["P"], .silent⟩, [])) := by
  refine ⟨?_, ?_, ?_, ?_, ?_, ?_⟩ <;> decide

/-- C7: the pretty-print layout contract.  A one-element list renders on a
single line as (head); a list whose children are all non-lists and number
at most 3 renders on a single line; otherwise the head plus all non-list
children render on the first line, each nested-list child renders
recursively on its own lines at one deeper indent, and a closing
parenthesis closes at the parent indent. -/
theorem C7_pretty_print_layout :
    (∀ (ind : Nat) (h : SExpr),
      format_sexpr_kicad_style (.list [h]) ind =
        tabs ind ++ "(" ++ sexprStr h ++ ")") ∧
    (∀ (ind : Nat) (h : SExpr) (items : List SExpr), items ≠ [] →
      items.length ≤ 3 → (∀ x ∈ items, x.isList = false) →
      format_sexpr_kicad_style (.list (h :: items)) ind =
        tabs ind ++ "(" ++ strIntercalate " "
          (sexprStr h :: primsOf (sexprStr h) items) ++ ")") ∧
    (∀ (ind : Nat) (h : SExpr) (items : List SExpr), items ≠ [] →
      (nestedOf items ≠ [] ∨ 3 < items.length) →
      format_sexpr_kicad_style (.list (h :: items)) ind =
        strIntercalate "\n"
          ((tabs ind ++ "(" ++ sexprStr h ++
            (if (primsOf (sexprStr h) items).isEmpty then ""
             else " " ++ strIntercalate " " (primsOf (sexprStr h) items))) ::
            ((nestedOf items).map
              (fun t => format_sexpr_kicad_style t (ind + 1)) ++
              [tabs ind ++ ")"]))) :=
  ⟨format_one_element, format_single_line, format_multi_line⟩

/-- C7 witness: the layout rules evaluated at concrete terms. -/
theorem C7_pretty_print_layout_witness :
    format_sexpr_kicad_style
      (.list [.atom (.sym "size"), .atom (.float 10), .atom (.float 20)]) 0 =
      "(size 10.0 20.0)" ∧
    format_sexpr_kicad_style
      (.list [.atom (.sym "a"), .atom (.int 1), .list [.atom (.sym "b")],
        .atom (.str "s")]) 0 =
      "(a 1 " ++ dquote ++ "s" ++ dquote ++ "\n\t(b)\n)" := by
  constructor
  · have h2 := C7_pretty_print_layout.2.1 0 (.atom (.sym "size"))
      [.atom (.float 10), .atom (.float 20)] (by decide) (by decide) (by decide)
    rw [h2]
    decide
  · have h3 := C7_pretty_print_layout.2.2 0 (.atom (.sym "a"))
      [.atom (.int 1), .list [.atom (.sym "b")], .atom (.str "s")]
      (by decide) (by decide)
    rw [h3]
    decide

/-- C8: evaluation at the failing input.  The source condition
token_name in ("type") is a substring test against the string "type"
(a tuple was intended), so the head "ype" - which is not the layer-shape
keyword - also prints its string child unquoted, while an ordinary head
such as "stroke" quotes it and the intended head "type" prints it bare. -/
theorem C8_type_substring_unquote_bug :
    format_sexpr_kicad_style
      (.list [.atom (.sym "ype"), .atom (.str "v")]) 0 = "(ype v)" ∧
    ("ype" : String) ≠ "type" ∧
    format_sexpr_kicad_style
      (.list [.atom (.sym "stroke"), .atom (.str "v")]) 0 =
      "(stroke " ++ dquote ++ "v" ++ dquote ++ ")" ∧
    format_sexpr_kicad_style
      (.list [.atom (.sym "type"), .atom (.str "solid")]) 0 = "(type solid)" := by
  refine ⟨?_, ?_, ?_, ?_⟩ <;> decide

/-- C9: two primitive-wrapper instances are equal exactly when their
concrete class, token and value agree; the required flag never
participates in the comparison. -/
theorem C9_primitive_equality :
    (∀ a b : KiCadPrimitive, KiCadPrimitive.eq a b = true ↔
      (a.cls = b.cls ∧ a.token = b.token ∧ pyValEq a.value b.value = true)) ∧
    (∀ (a b : KiCadPrimitive) (r r2 : Bool),
      KiCadPrimitive.eq { a with required := r } { b with required := r2 } =
        KiCadPrimitive.eq a b) ∧
    (KiCadPrimitive.eq ⟨.kicadStr, "t", .s "v", true⟩
      ⟨.kicadStr, "t", .s "v", false⟩ = true) := by
  refine ⟨?_, ?_, ?_⟩
  · intro a b
    simp [KiCadPrimitive.eq, Bool.and_eq_true, beq_iff_eq, and_assoc]
  · intro a b r r2
    rfl
  · decide

/-- C10: parsing a boolean is total over atoms — whenever the element at
the target index is an atom, parse_bool returns the membership test of the
lowercased textual form against yes/true/1, marks the index used, never
raises and never logs, under every strictness and required flag. -/
theorem C10_parse_bool_total :
    ∀ (c : ParseCursor) (log : List String) (idx : Nat) (fn : String)
      (req : Bool) (a : Atom),
      c.sexpr.getAt? idx = some (.atom a) →
      parse_bool c log idx fn req =
        .ok (some (strToLower (atomStr a) == "yes" ||
          strToLower (atomStr a) == "true" || strToLower (atomStr a) == "1"),
          c.mark_used idx, log) := by
  intro c log idx fn req a hget
  have h := parse_bool_atom c log idx fn req a hget
  simpa [pyBool] using h

/-- C10 witness: unrecognized boolean text parses to false without any
error even under Strict. -/
theorem C10_parse_bool_total_witness :
    parse_bool ⟨.list [.atom (.sym "curved_edges"), .atom (.sym "maybe")],
      [], ["CurvedEdges"], .strict⟩ [] 1 "value" true =
      .ok (some false,
        (⟨.list [.atom (.sym "curved_edges"), .atom (.sym "maybe")],
          [], ["CurvedEdges"], .strict⟩ : ParseCursor).mark_used 1, []) := by
  have h := C10_parse_bool_total
    ⟨.list [.atom (.sym "curved_edges"), .atom (.sym "maybe")],
      [], ["CurvedEdges"], .strict⟩ [] 1 "value" true (.sym "maybe") (by decide)
  rw [h]
  decide

